import Mathlib

/-!
Shallow embedding of the GLaDOS repository (src/subrunner.py and src/main.py).

The supervisor in `subrunner.py` keeps a dict `self.processes` mapping a
process-identifier string to a record holding a `subprocess.Popen` handle and
a `running` flag.  The embedding models the OS process table as a total
function `Nat → OsProc` (a `Popen` handle is its OS pid pointing into that
table) and the registry dict as an association list with unique keys.
Real time is abstracted: "the process exits within the 5-second grace window
after SIGTERM" is modelled by the process's `ignoresTerm` attribute being
false, and `Popen.wait(timeout=5)` raising `TimeoutExpired` is modelled by
the process still having `exited = none` after the signal was delivered.
-/

/-- State of one OS-level child process: its exit code once it has exited
(`Popen.poll()` result), and whether it ignores graceful termination
(SIGTERM); SIGKILL is never ignorable. -/
structure OsProc where
  exited : Option Int
  ignoresTerm : Bool
deriving DecidableEq

/-- One entry of `self.processes` in `ParallelRunner` (subrunner.py lines
43-47): the `Popen` handle (modelled by its OS pid) and the drain thread's
`running` flag.  The `thread` field of the source dict carries no observable
state and is omitted. -/
structure ProcInfo where
  pid : Nat
  running : Bool
deriving DecidableEq

/-- The registry dict `self.processes`, as an insertion-ordered association
list with unique keys (the invariant every Python dict maintains). -/
abbrev Registry := List (String × ProcInfo)

/-- Python `process_id in self.processes` / `self.processes[process_id]`:
first (and for a dict, the only) binding of the key. -/
def lookupReg : Registry → String → Option ProcInfo
  | [], _ => none
  | (a, b) :: r, k => if a = k then some b else lookupReg r k

/-- Python `self.processes[process_id] = {...}` (subrunner.py line 43):
replaces the binding in place when the key is present, otherwise appends. -/
def insertReg : Registry → String → ProcInfo → Registry
  | [], k, v => [(k, v)]
  | (a, b) :: r, k, v => if a = k then (k, v) :: r else (a, b) :: insertReg r k v

/-- Python `del self.processes[process_id]` (subrunner.py lines 102, 107):
removes the binding of the key. -/
def eraseReg : Registry → String → Registry
  | [], _ => []
  | (a, b) :: r, k => if a = k then eraseReg r k else (a, b) :: eraseReg r k

/-- The whole mutable state the supervisor touches: the ambient OS process
table and the runner's registry dict. -/
structure World where
  os : Nat → OsProc
  registry : Registry

/-- Point update of the OS process table. -/
def updateOs (os : Nat → OsProc) (p : Nat) (f : OsProc → OsProc) : Nat → OsProc :=
  fun q => if q = p then f (os q) else os q

/-- `Popen.terminate()`: delivers SIGTERM; a process that ignores it keeps
running, otherwise it exits (with the conventional -15 code).  A process
that already exited is unaffected. -/
def sendTerm (o : OsProc) : OsProc :=
  if o.exited.isSome then o
  else if o.ignoresTerm then o
  else { o with exited := some (-15) }

/-- `Popen.kill()`: delivers SIGKILL, which cannot be ignored.  A process
that already exited is unaffected. -/
def sendKill (o : OsProc) : OsProc :=
  if o.exited.isSome then o else { o with exited := some (-9) }

/-- Python truthiness of `tag or f"proc_{process.pid}"` (subrunner.py line
40): `None` and the empty string are falsy, any other string is truthy. -/
def pyStrOr (tag : Option String) (d : String) : String :=
  match tag with
  | none => d
  | some t => if t = "" then d else t

/-- `ParallelRunner.run` (subrunner.py lines 14-78), state effects only.
`script_file_found` models `os.path.exists(script_name)` (line 24); a false
value raises `FileNotFoundError` before `Popen` runs, returned here as
`Except.error ()` with the world untouched.  `new_pid` is the OS pid the
spawn assigns and `child_ignores_sigterm` the spawned process's behaviour
towards SIGTERM.  On success the registry gains the record
`{'process': process, 'running': True}` under `tag or f"proc_{pid}"`. -/
def ParallelRunner.run (w : World) (script_file_found : Bool) (new_pid : Nat)
    (child_ignores_sigterm : Bool) (tag : Option String) :
    Except Unit String × World :=
  if script_file_found = false then (Except.error (), w)
  else
    let os1 := updateOs w.os new_pid
      (fun _ => { exited := none, ignoresTerm := child_ignores_sigterm })
    let process_id := pyStrOr tag ("proc_" ++ toString new_pid)
    (Except.ok process_id,
      { os := os1,
        registry := insertReg w.registry process_id { pid := new_pid, running := true } })

/-- The OS-table effect of `ParallelRunner.stop` on a not-yet-exited process
(subrunner.py lines 88-99): `kill()` if `force` else `terminate()`, then
`wait(timeout=5)`; on `TimeoutExpired` (the process still not exited) the
handler reads `if force: kill(); wait()` — note the condition is `force`,
not `not force`, exactly as the source has it. -/
def stopSignalOs (os : Nat → OsProc) (p : Nat) (force : Bool) : Nat → OsProc :=
  let os1 := updateOs os p (if force then sendKill else sendTerm)
  if (os1 p).exited.isNone then
    if force then updateOs os1 p sendKill else os1
  else os1

/-- `ParallelRunner.stop` on a tracked record (subrunner.py lines 85-109):
if `poll()` shows the process already exited, just delete the record;
otherwise signal it per `stopSignalOs`, then delete the record.  Both paths
return `True` in the source. -/
def stopTracked (w : World) (process_id : String) (info : ProcInfo) (force : Bool) : World :=
  if (w.os info.pid).exited.isSome then
    { w with registry := eraseReg w.registry process_id }
  else
    { os := stopSignalOs w.os info.pid force,
      registry := eraseReg w.registry process_id }

/-- `ParallelRunner.stop` (subrunner.py lines 80-109): untracked identifier
returns `False` with no effect; a tracked one is handled by `stopTracked`
and returns `True`. -/
def ParallelRunner.stop (w : World) (process_id : String) (force : Bool) : World × Bool :=
  match lookupReg w.registry process_id with
  | none => (w, false)
  | some info => (stopTracked w process_id info force, true)

/-- Sequentially `stop` every identifier of a list (the loop of
subrunner.py lines 115-116). -/
def stopList (w : World) (ids : List String) (force : Bool) : World :=
  ids.foldl (fun acc i => (ParallelRunner.stop acc i force).1) w

/-- `ParallelRunner.stop_all` (subrunner.py lines 111-116): snapshot
`list(self.processes.keys())` under the lock, then `stop` each in turn. -/
def ParallelRunner.stop_all (w : World) (force : Bool) : World :=
  stopList w (w.registry.map Prod.fst) force

/-- `ParallelRunner.is_running` (subrunner.py lines 118-126): false for an
untracked identifier, otherwise `process.poll() is None`.  A pure read: the
source only reads the dict under the lock. -/
def ParallelRunner.is_running (w : World) (process_id : String) : Bool :=
  match lookupReg w.registry process_id with
  | none => false
  | some info => (w.os info.pid).exited.isNone

/-- `ParallelRunner.wait` (subrunner.py lines 141-150): `None` for an
untracked identifier; otherwise `process.wait(timeout=timeout)`, which
returns the exit code if the process has exited or exits within the
timeout (`exits_within_timeout` with eventual code `eventual_code` models
that external outcome), and `None` on `TimeoutExpired`.  A pure read. -/
def ParallelRunner.wait (w : World) (process_id : String)
    (exits_within_timeout : Bool) (eventual_code : Int) : Option Int :=
  match lookupReg w.registry process_id with
  | none => none
  | some info =>
    match (w.os info.pid).exited with
    | some c => some c
    | none => if exits_within_timeout then some eventual_code else none

/-- Module-level `stop` (subrunner.py lines 168-169). -/
def subrunner.stop (w : World) (pid : String) (force : Bool) : World × Bool :=
  ParallelRunner.stop w pid force

/-- Module-level `kill` (subrunner.py lines 174-175):
`_runner.stop(pid, force=True)`. -/
def subrunner.kill (w : World) (pid : String) : World × Bool :=
  ParallelRunner.stop w pid true

/-- Module-level `stop_all` (subrunner.py lines 171-172). -/
def subrunner.stop_all (w : World) (force : Bool) : World :=
  ParallelRunner.stop_all w force

/-- Module-level `kill_all` (subrunner.py lines 177-178):
`_runner.stop_all(force=True)`. -/
def subrunner.kill_all (w : World) : World :=
  ParallelRunner.stop_all w true

/-- A per-line effect of the drain task `read_output`
(subrunner.py lines 49-61). -/
inductive OutputEvent where
  | toCallback (line : String)
  | toConsole (text : String)
deriving DecidableEq

/-- Python `str.rstrip(chr)` restricted to a newline argument, as in
`line.rstrip('\n')` (subrunner.py line 55): drops every trailing newline
character. -/
def rstripNl (s : String) : String :=
  String.mk ((s.data.reverse.dropWhile (fun c => c = '\n')).reverse)

/-- Per-line dispatch of the drain task (subrunner.py lines 54-61): an empty
read (`if line:` falsy) does nothing; otherwise the stripped line goes to
the callback when `show_output and callback`, to the console as
`[process_id]: line` when only `show_output`, to the callback when only
`callback`, and nowhere when neither. -/
def dispatchLine (show_output has_callback : Bool) (process_id raw : String) :
    Option OutputEvent :=
  if raw = "" then none
  else
    let output := rstripNl raw
    if show_output && has_callback then some (OutputEvent.toCallback output)
    else if show_output then
      some (OutputEvent.toConsole ("[" ++ process_id ++ "]: " ++ output))
    else if has_callback then some (OutputEvent.toCallback output)
    else none

/-- `right_offset` of main.py line 14. -/
def right_offset : Int := 20

/-- A parsed tkinter geometry `WxH+x+y`. -/
structure Geometry where
  width : Int
  height : Int
  x : Int
  y : Int
deriving DecidableEq

/-- The overlay geometry computed in main.py lines 30-37:
`f"\x7bimg_width\x7dx\x7bimg_height\x7d+\x7bx\x7d+\x7b0\x7d"` with
`x = screen_width - img_width - right_offset`. -/
def overlayGeometry (screen_width img_width img_height : Int) : Geometry :=
  { width := img_width
    height := img_height
    x := screen_width - img_width - right_offset
    y := 0 }

/-- The interleaving scenario of the stop-all snapshot claim: `stop_all`
takes its snapshot of the keys, stops the first `k` of them, then another
launch happens (from the drained state `w1`), then the remaining snapshot
entries are stopped.  Each step is the source operation itself; only the
interleaving point `k` is a parameter. -/
def stopAllWithLaunchAfterSnapshot (w : World) (force : Bool) (k : Nat)
    (new_pid : Nat) (ig : Bool) (tag : Option String) : World :=
  let ids := w.registry.map Prod.fst
  let w1 := stopList w (ids.take k) force
  let w2 := (ParallelRunner.run w1 true new_pid ig tag).2
  stopList w2 (ids.drop k) force

/-- "The late-launched process with identifier `idY` and OS pid `new_pid` is
tracked with a fresh record, is still running, and no other registry entry
aliases its pid" — the invariant carried through the tail of the stop-all
snapshot iteration. -/
def survives (idY : String) (new_pid : Nat) (w : World) : Prop :=
  lookupReg w.registry idY = some { pid := new_pid, running := true } ∧
  (w.os new_pid).exited = none ∧
  ∀ e ∈ w.registry, e.1 ≠ idY → e.2.pid ≠ new_pid

/-- "No tracked record points at OS pid `new_pid`" — freshness of the pid the
OS will hand to a later spawn, carried through the head of the stop-all
snapshot iteration. -/
def pidFresh (new_pid : Nat) (w : World) : Prop :=
  ∀ e ∈ w.registry, e.2.pid ≠ new_pid

theorem lookupReg_eraseReg_self : ∀ (r : Registry) (k : String),
    lookupReg (eraseReg r k) k = none
  | [], _ => rfl
  | (a, b) :: r, k => by
    by_cases hak : a = k
    · simp [eraseReg, hak, lookupReg_eraseReg_self r k]
    · simp [eraseReg, hak, lookupReg, lookupReg_eraseReg_self r k]

theorem lookupReg_eraseReg_other : ∀ (r : Registry) (k j : String), j ≠ k →
    lookupReg (eraseReg r k) j = lookupReg r j
  | [], _, _, _ => rfl
  | (a, b) :: r, k, j, h => by
    have hkj : ¬ k = j := fun hh => h hh.symm
    by_cases hak : a = k
    · simp [eraseReg, hak, lookupReg, hkj, lookupReg_eraseReg_other r k j h]
    · by_cases haj : a = j
      · simp [eraseReg, hak, lookupReg, haj, hkj, h]
      · simp [eraseReg, hak, lookupReg, haj, lookupReg_eraseReg_other r k j h]

theorem mem_eraseReg : ∀ (r : Registry) (k : String) (e : String × ProcInfo),
    e ∈ eraseReg r k → e ∈ r
  | [], k, e, h => by simp [eraseReg] at h
  | (a, b) :: r, k, e, h => by
    by_cases hak : a = k
    · simp only [eraseReg, if_pos hak] at h
      exact List.mem_cons_of_mem _ (mem_eraseReg r k e h)
    · simp only [eraseReg, if_neg hak] at h
      rcases List.mem_cons.mp h with h1 | h2
      · exact h1 ▸ List.mem_cons_self _ _
      · exact List.mem_cons_of_mem _ (mem_eraseReg r k e h2)

theorem lookupReg_insertReg_self : ∀ (r : Registry) (k : String) (v : ProcInfo),
    lookupReg (insertReg r k v) k = some v
  | [], k, v => by simp [insertReg, lookupReg]
  | (a, b) :: r, k, v => by
    by_cases hak : a = k
    · simp [insertReg, hak, lookupReg]
    · simp [insertReg, hak, lookupReg, lookupReg_insertReg_self r k v]

theorem keys_insertReg_of_some : ∀ (r : Registry) (k : String) (v info : ProcInfo),
    lookupReg r k = some info → (insertReg r k v).map Prod.fst = r.map Prod.fst
  | [], _, _, _, h => by simp [lookupReg] at h
  | (a, b) :: r, k, v, info, h => by
    by_cases hak : a = k
    · simp [insertReg, hak]
    · simp only [lookupReg, if_neg hak] at h
      simp [insertReg, hak, keys_insertReg_of_some r k v info h]

theorem mem_insertReg : ∀ (r : Registry) (k : String) (v : ProcInfo) (e : String × ProcInfo),
    e ∈ insertReg r k v → e = (k, v) ∨ e ∈ r
  | [], k, v, e, h => by simpa [insertReg] using h
  | (a, b) :: r, k, v, e, h => by
    by_cases hak : a = k
    · simp only [insertReg, if_pos hak] at h
      rcases List.mem_cons.mp h with h1 | h2
      · exact Or.inl h1
      · exact Or.inr (List.mem_cons_of_mem _ h2)
    · simp only [insertReg, if_neg hak] at h
      rcases List.mem_cons.mp h with h1 | h2
      · exact Or.inr (h1 ▸ List.mem_cons_self _ _)
      · rcases mem_insertReg r k v e h2 with h3 | h4
        · exact Or.inl h3
        · exact Or.inr (List.mem_cons_of_mem _ h4)

theorem lookupReg_insertReg_other : ∀ (r : Registry) (k : String) (v : ProcInfo)
    (j : String), j ≠ k → lookupReg (insertReg r k v) j = lookupReg r j
  | [], k, v, j, h => by
    have hkj : ¬ k = j := fun hh => h hh.symm
    simp [insertReg, lookupReg, hkj]
  | (a, b) :: r, k, v, j, h => by
    have hkj : ¬ k = j := fun hh => h hh.symm
    by_cases hak : a = k
    · subst hak
      simp [insertReg, lookupReg, hkj]
    · by_cases haj : a = j
      · simp [insertReg, lookupReg, hak, haj, h]
      · simp [insertReg, lookupReg, hak, haj,
          lookupReg_insertReg_other r k v j h]

theorem lookupReg_mem : ∀ (r : Registry) (k : String) (v : ProcInfo),
    lookupReg r k = some v → (k, v) ∈ r
  | [], _, _, h => by simp [lookupReg] at h
  | (a, b) :: r, k, v, h => by
    by_cases hak : a = k
    · subst hak
      simp [lookupReg] at h
      subst h
      exact List.mem_cons_self _ _
    · simp only [lookupReg, if_neg hak] at h
      exact List.mem_cons_of_mem _ (lookupReg_mem r k v h)

theorem stop_of_lookup_none (w : World) (i : String) (f : Bool)
    (h : lookupReg w.registry i = none) : ParallelRunner.stop w i f = (w, false) := by
  simp [ParallelRunner.stop, h]

theorem stop_of_lookup_some (w : World) (i : String) (f : Bool) (info : ProcInfo)
    (h : lookupReg w.registry i = some info) :
    ParallelRunner.stop w i f = (stopTracked w i info f, true) := by
  simp [ParallelRunner.stop, h]

theorem stopTracked_registry (w : World) (i : String) (info : ProcInfo) (f : Bool) :
    (stopTracked w i info f).registry = eraseReg w.registry i := by
  unfold stopTracked
  split <;> rfl

theorem stopSignalOs_other (os : Nat → OsProc) (p : Nat) (f : Bool) (q : Nat)
    (h : q ≠ p) : stopSignalOs os p f q = os q := by
  have hup : ∀ (os2 : Nat → OsProc) (g : OsProc → OsProc), updateOs os2 p g q = os2 q := by
    intro os2 g
    simp [updateOs, h]
  cases f with
  | true =>
    show (if ((updateOs os p sendKill) p).exited.isNone then
        updateOs (updateOs os p sendKill) p sendKill else updateOs os p sendKill) q = os q
    split
    · rw [hup, hup]
    · rw [hup]
  | false =>
    show (if ((updateOs os p sendTerm) p).exited.isNone then
        updateOs os p sendTerm else updateOs os p sendTerm) q = os q
    split
    · rw [hup]
    · rw [hup]

theorem stop_os_other (w : World) (i : String) (f : Bool) (q : Nat)
    (h : ∀ info, lookupReg w.registry i = some info → info.pid ≠ q) :
    (ParallelRunner.stop w i f).1.os q = w.os q := by
  cases hl : lookupReg w.registry i with
  | none => rw [stop_of_lookup_none w i f hl]
  | some info =>
    rw [stop_of_lookup_some w i f info hl]
    have hpid : info.pid ≠ q := h info hl
    show (stopTracked w i info f).os q = w.os q
    unfold stopTracked
    split
    · rfl
    · exact stopSignalOs_other _ _ _ _ (fun hq => hpid hq.symm)

theorem stop_registry_other (w : World) (i j : String) (f : Bool) (h : j ≠ i) :
    lookupReg (ParallelRunner.stop w i f).1.registry j = lookupReg w.registry j := by
  cases hl : lookupReg w.registry i with
  | none => rw [stop_of_lookup_none w i f hl]
  | some info =>
    rw [stop_of_lookup_some w i f info hl]
    show lookupReg (stopTracked w i info f).registry j = lookupReg w.registry j
    rw [stopTracked_registry]
    exact lookupReg_eraseReg_other _ _ _ h

theorem stop_mem_sub (w : World) (i : String) (f : Bool) (e : String × ProcInfo)
    (h : e ∈ (ParallelRunner.stop w i f).1.registry) : e ∈ w.registry := by
  cases hl : lookupReg w.registry i with
  | none =>
    rw [stop_of_lookup_none w i f hl] at h
    exact h
  | some info =>
    rw [stop_of_lookup_some w i f info hl] at h
    rw [show (stopTracked w i info f, true).1 = stopTracked w i info f from rfl,
      stopTracked_registry] at h
    exact mem_eraseReg _ _ _ h

theorem run_ok_id (w : World) (p : Nat) (ig : Bool) (tag : Option String) :
    (ParallelRunner.run w true p ig tag).1
      = Except.ok (pyStrOr tag ("proc_" ++ toString p)) := rfl

theorem run_ok_registry (w : World) (p : Nat) (ig : Bool) (tag : Option String) :
    (ParallelRunner.run w true p ig tag).2.registry
      = insertReg w.registry (pyStrOr tag ("proc_" ++ toString p))
          { pid := p, running := true } := rfl

theorem run_ok_os (w : World) (p : Nat) (ig : Bool) (tag : Option String) :
    (ParallelRunner.run w true p ig tag).2.os
      = updateOs w.os p (fun _ => { exited := none, ignoresTerm := ig }) := rfl

theorem stop_preserves_pidFresh (w : World) (i : String) (f : Bool) (p : Nat)
    (h : pidFresh p w) : pidFresh p (ParallelRunner.stop w i f).1 :=
  fun e he => h e (stop_mem_sub w i f e he)

theorem stopList_preserves_pidFresh : ∀ (ids : List String) (w : World) (f : Bool) (p : Nat),
    pidFresh p w → pidFresh p (stopList w ids f)
  | [], _, _, _, h => h
  | i :: ids, w, f, p, h =>
    stopList_preserves_pidFresh ids (ParallelRunner.stop w i f).1 f p
      (stop_preserves_pidFresh w i f p h)

theorem stop_preserves_survives (w : World) (i : String) (f : Bool)
    (idY : String) (p : Nat) (hne : i ≠ idY)
    (h : survives idY p w) : survives idY p (ParallelRunner.stop w i f).1 := by
  obtain ⟨h1, h2, h3⟩ := h
  refine ⟨?_, ?_, ?_⟩
  · rw [stop_registry_other w i idY f (fun hh => hne hh.symm)]
    exact h1
  · have hfr : ∀ info, lookupReg w.registry i = some info → info.pid ≠ p := by
      intro info hinfo
      exact h3 (i, info) (lookupReg_mem _ _ _ hinfo) hne
    rw [stop_os_other w i f p hfr]
    exact h2
  · intro e he heY
    exact h3 e (stop_mem_sub w i f e he) heY

theorem stopList_preserves_survives : ∀ (ids : List String) (w : World) (f : Bool)
    (idY : String) (p : Nat), idY ∉ ids → survives idY p w →
    survives idY p (stopList w ids f)
  | [], _, _, _, _, _, h => h
  | i :: ids, w, f, idY, p, hmem, h => by
    have hne : i ≠ idY := by
      intro hh
      apply hmem
      rw [← hh]
      exact List.mem_cons_self i ids
    exact stopList_preserves_survives ids (ParallelRunner.stop w i f).1 f idY p
      (fun hm => hmem (List.mem_cons_of_mem _ hm))
      (stop_preserves_survives w i f idY p hne h)

theorem run_establishes_survives (w : World) (new_pid : Nat) (ig : Bool)
    (tag : Option String) (hfr : pidFresh new_pid w) :
    survives (pyStrOr tag ("proc_" ++ toString new_pid)) new_pid
      (ParallelRunner.run w true new_pid ig tag).2 := by
  refine ⟨?_, ?_, ?_⟩
  · rw [run_ok_registry]
    exact lookupReg_insertReg_self _ _ _
  · rw [run_ok_os]
    simp [updateOs]
  · intro e he heY
    rw [run_ok_registry] at he
    rcases mem_insertReg _ _ _ _ he with h1 | h2
    · exact absurd (congrArg Prod.fst h1) heY
    · exact hfr e h2

theorem stopAllWithLaunchAfterSnapshot_eq (w : World) (force : Bool) (k : Nat)
    (new_pid : Nat) (ig : Bool) (tag : Option String) :
    stopAllWithLaunchAfterSnapshot w force k new_pid ig tag
      = stopList ((ParallelRunner.run
            (stopList w ((w.registry.map Prod.fst).take k) force)
            true new_pid ig tag).2)
          ((w.registry.map Prod.fst).drop k) force := rfl

/-- Claim C1 (code bug): the claim says Stop(id, force=false) on a tracked,
not-yet-exited process escalates to a kill after the 5-second grace window,
so the process is terminated even if it ignores graceful termination.  The
source's TimeoutExpired handler (subrunner.py lines 96-99) guards the
escalation with `if force:` — with `force=False` nothing is killed.  At the
failing input (a tracked process that ignores SIGTERM), stop returns True
and removes the record, yet the process is still running afterwards. -/
theorem C1_stop_no_escalation_for_stubborn_process :
    (ParallelRunner.stop
        { os := fun _ => { exited := none, ignoresTerm := true },
          registry := [("x", { pid := 7, running := true })] } "x" false).2 = true ∧
    lookupReg (ParallelRunner.stop
        { os := fun _ => { exited := none, ignoresTerm := true },
          registry := [("x", { pid := 7, running := true })] } "x" false).1.registry "x"
      = none ∧
    ((ParallelRunner.stop
        { os := fun _ => { exited := none, ignoresTerm := true },
          registry := [("x", { pid := 7, running := true })] } "x" false).1.os 7).exited
      = none :=
  ⟨rfl, rfl, rfl⟩

/-- Claim C2: each line read by the drain task is dispatched with its
trailing newline stripped: callback-and-show-output routes to the callback
only, show-output-only prints `[id]: line` to the console, callback-only
routes to the callback, and neither performs no per-line action. -/
theorem C2_drain_line_dispatch (process_id raw : String) (h : raw ≠ "") :
    dispatchLine true true process_id raw
      = some (OutputEvent.toCallback (rstripNl raw)) ∧
    dispatchLine true false process_id raw
      = some (OutputEvent.toConsole ("[" ++ process_id ++ "]: " ++ rstripNl raw)) ∧
    dispatchLine false true process_id raw
      = some (OutputEvent.toCallback (rstripNl raw)) ∧
    dispatchLine false false process_id raw = none := by
  refine ⟨?_, ?_, ?_, ?_⟩ <;> simp [dispatchLine, h]

/-- Witness for C2 at the concrete line `"hello\n"`. -/
theorem C2_drain_line_dispatch_witness :
    ("hello\n" : String) ≠ "" ∧
    (dispatchLine true true "p" "hello\n"
        = some (OutputEvent.toCallback (rstripNl "hello\n")) ∧
      dispatchLine true false "p" "hello\n"
        = some (OutputEvent.toConsole ("[" ++ "p" ++ "]: " ++ rstripNl "hello\n")) ∧
      dispatchLine false true "p" "hello\n"
        = some (OutputEvent.toCallback (rstripNl "hello\n")) ∧
      dispatchLine false false "p" "hello\n" = none) :=
  ⟨by decide, C2_drain_line_dispatch "p" "hello\n" (by decide)⟩

/-- Claim C3: launching a script whose path does not exist fails with the
NotFound error before any process is spawned and leaves the whole state —
in particular the registry — unchanged. -/
theorem C3_run_missing_script (w : World) (new_pid : Nat) (ig : Bool)
    (tag : Option String) :
    ParallelRunner.run w false new_pid ig tag = (Except.error (), w) := rfl

/-- Claim C4: for an identifier not present in the registry, stop returns
false and leaves the state unchanged, is_running returns false, and wait
returns the absent result; none of them raises an error (all are total
functions here) and none modifies the registry (is_running and wait are
pure reads in the source). -/
theorem C4_untracked_identifier_noop (w : World) (id1 : String)
    (h : lookupReg w.registry id1 = none) :
    (∀ f, ParallelRunner.stop w id1 f = (w, false)) ∧
    ParallelRunner.is_running w id1 = false ∧
    (∀ b c, ParallelRunner.wait w id1 b c = none) := by
  refine ⟨fun f => stop_of_lookup_none w id1 f h, ?_, ?_⟩
  · simp [ParallelRunner.is_running, h]
  · intro b c
    simp [ParallelRunner.wait, h]

/-- Witness for C4 on an empty registry and identifier `"x"`. -/
theorem C4_untracked_identifier_noop_witness :
    lookupReg (World.mk (fun _ => { exited := some 0, ignoresTerm := false }) []).registry "x"
      = none ∧
    ParallelRunner.stop
      (World.mk (fun _ => { exited := some 0, ignoresTerm := false }) []) "x" false
      = (World.mk (fun _ => { exited := some 0, ignoresTerm := false }) [], false) ∧
    ParallelRunner.is_running
      (World.mk (fun _ => { exited := some 0, ignoresTerm := false }) []) "x" = false ∧
    ParallelRunner.wait
      (World.mk (fun _ => { exited := some 0, ignoresTerm := false }) []) "x" true 0 = none :=
  ⟨rfl,
    (C4_untracked_identifier_noop
      (World.mk (fun _ => { exited := some 0, ignoresTerm := false }) []) "x" rfl).1 false,
    (C4_untracked_identifier_noop
      (World.mk (fun _ => { exited := some 0, ignoresTerm := false }) []) "x" rfl).2.1,
    (C4_untracked_identifier_noop
      (World.mk (fun _ => { exited := some 0, ignoresTerm := false }) []) "x" rfl).2.2 true 0⟩

/-- Claim C5: stop on a tracked identifier returns true and removes the
record (in every branch of the source) so that an immediately repeated stop
returns false; stop on a never-tracked identifier returns false. -/
theorem C5_stop_idempotence (w : World) (id1 : String) (f : Bool) :
    (∀ info, lookupReg w.registry id1 = some info →
      (ParallelRunner.stop w id1 f).2 = true ∧
      lookupReg (ParallelRunner.stop w id1 f).1.registry id1 = none ∧
      (ParallelRunner.stop (ParallelRunner.stop w id1 f).1 id1 f).2 = false) ∧
    (lookupReg w.registry id1 = none → (ParallelRunner.stop w id1 f).2 = false) := by
  constructor
  · intro info hl
    have hs := stop_of_lookup_some w id1 f info hl
    have hreg : lookupReg (ParallelRunner.stop w id1 f).1.registry id1 = none := by
      rw [hs]
      show lookupReg (stopTracked w id1 info f).registry id1 = none
      rw [stopTracked_registry]
      exact lookupReg_eraseReg_self _ _
    refine ⟨by rw [hs], hreg, ?_⟩
    rw [stop_of_lookup_none _ id1 f hreg]
  · intro hl
    rw [stop_of_lookup_none w id1 f hl]

/-- Witness for C5: a world tracking `"a"` (running process, pid 7), plus
the untracked identifier `"b"` on the same world. -/
theorem C5_stop_idempotence_witness :
    lookupReg (World.mk (fun _ => { exited := none, ignoresTerm := false })
        [("a", { pid := 7, running := true })]).registry "a"
      = some { pid := 7, running := true } ∧
    ((ParallelRunner.stop (World.mk (fun _ => { exited := none, ignoresTerm := false })
        [("a", { pid := 7, running := true })]) "a" false).2 = true ∧
      lookupReg (ParallelRunner.stop (World.mk (fun _ => { exited := none, ignoresTerm := false })
        [("a", { pid := 7, running := true })]) "a" false).1.registry "a" = none ∧
      (ParallelRunner.stop (ParallelRunner.stop
        (World.mk (fun _ => { exited := none, ignoresTerm := false })
          [("a", { pid := 7, running := true })]) "a" false).1 "a" false).2 = false) ∧
    lookupReg (World.mk (fun _ => { exited := none, ignoresTerm := false })
        [("a", { pid := 7, running := true })]).registry "b" = none ∧
    (ParallelRunner.stop (World.mk (fun _ => { exited := none, ignoresTerm := false })
        [("a", { pid := 7, running := true })]) "b" false).2 = false :=
  ⟨rfl,
    (C5_stop_idempotence _ "a" false).1 { pid := 7, running := true } rfl,
    rfl,
    (C5_stop_idempotence _ "b" false).2 rfl⟩

/-- Claim C6: launching with a non-empty tag that collides with a
currently-tracked identifier silently overwrites the registry entry — the
tag afterwards maps to the new process's record, the registry holds exactly
one record under that tag, and the older process's OS state is untouched
(it is not stopped). -/
theorem C6_tag_collision_overwrites (w : World) (t : String) (info : ProcInfo)
    (p2 : Nat) (ig2 : Bool)
    (ht : t ≠ "")
    (htr : lookupReg w.registry t = some info)
    (hp : info.pid ≠ p2)
    (hwf : (w.registry.map Prod.fst).Nodup) :
    lookupReg (ParallelRunner.run w true p2 ig2 (some t)).2.registry t
      = some { pid := p2, running := true } ∧
    ((ParallelRunner.run w true p2 ig2 (some t)).2.registry.map Prod.fst).count t = 1 ∧
    (ParallelRunner.run w true p2 ig2 (some t)).2.os info.pid = w.os info.pid := by
  have hid : pyStrOr (some t) ("proc_" ++ toString p2) = t := by
    simp [pyStrOr, ht]
  refine ⟨?_, ?_, ?_⟩
  · rw [run_ok_registry, hid]
    exact lookupReg_insertReg_self _ _ _
  · rw [run_ok_registry, hid,
      keys_insertReg_of_some w.registry t { pid := p2, running := true } info htr]
    exact List.count_eq_one_of_mem hwf
      (List.mem_map_of_mem Prod.fst (lookupReg_mem _ _ _ htr))
  · rw [run_ok_os]
    simp [updateOs, hp]

/-- Witness for C6: tag `"a"` tracked with pid 7, second launch gets pid 9. -/
theorem C6_tag_collision_overwrites_witness :
    ("a" : String) ≠ "" ∧
    lookupReg (World.mk (fun _ => { exited := none, ignoresTerm := false })
        [("a", { pid := 7, running := true })]).registry "a"
      = some { pid := 7, running := true } ∧
    ({ pid := 7, running := true } : ProcInfo).pid ≠ 9 ∧
    ((World.mk (fun _ => { exited := none, ignoresTerm := false })
        [("a", { pid := 7, running := true })]).registry.map Prod.fst).Nodup ∧
    (lookupReg (ParallelRunner.run (World.mk (fun _ => { exited := none, ignoresTerm := false })
          [("a", { pid := 7, running := true })]) true 9 false (some "a")).2.registry "a"
        = some { pid := 9, running := true } ∧
      ((ParallelRunner.run (World.mk (fun _ => { exited := none, ignoresTerm := false })
          [("a", { pid := 7, running := true })]) true 9 false
          (some "a")).2.registry.map Prod.fst).count "a" = 1 ∧
      (ParallelRunner.run (World.mk (fun _ => { exited := none, ignoresTerm := false })
          [("a", { pid := 7, running := true })]) true 9 false (some "a")).2.os
          ({ pid := 7, running := true } : ProcInfo).pid
        = (World.mk (fun _ => { exited := none, ignoresTerm := false })
          [("a", { pid := 7, running := true })]).os
          ({ pid := 7, running := true } : ProcInfo).pid) :=
  ⟨by decide, rfl, by decide, by decide,
    C6_tag_collision_overwrites
      (World.mk (fun _ => { exited := none, ignoresTerm := false })
        [("a", { pid := 7, running := true })])
      "a" { pid := 7, running := true } 9 false (by decide) rfl (by decide) (by decide)⟩

/-- Claim C7: for an image of width W and height H on a screen of width S,
the overlay window is W×H at x-origin S − W − 20 and y-origin 0
(main.py lines 30-37). -/
theorem C7_overlay_geometry (s w h : Int) :
    (overlayGeometry s w h).width = w ∧
    (overlayGeometry s w h).height = h ∧
    (overlayGeometry s w h).x = s - w - 20 ∧
    (overlayGeometry s w h).y = 0 :=
  ⟨rfl, rfl, rfl, rfl⟩

/-- Claim C8: stop_all iterates a snapshot of the tracked identifiers; a
process launched after the snapshot (at any interleaving point k of the
iteration, with a fresh OS pid and an identifier outside the snapshot) is
still tracked, with its fresh record, and still running when the iteration
finishes. -/
theorem C8_stop_all_snapshot (w : World) (force : Bool) (k new_pid : Nat)
    (ig : Bool) (tag : Option String)
    (hfr : pidFresh new_pid w)
    (hsnap : pyStrOr tag ("proc_" ++ toString new_pid) ∉ w.registry.map Prod.fst) :
    ParallelRunner.stop_all w force = stopList w (w.registry.map Prod.fst) force ∧
    lookupReg (stopAllWithLaunchAfterSnapshot w force k new_pid ig tag).registry
        (pyStrOr tag ("proc_" ++ toString new_pid))
      = some { pid := new_pid, running := true } ∧
    ((stopAllWithLaunchAfterSnapshot w force k new_pid ig tag).os new_pid).exited
      = none := by
  have h1 : pidFresh new_pid (stopList w ((w.registry.map Prod.fst).take k) force) :=
    stopList_preserves_pidFresh _ _ _ _ hfr
  have h2 := run_establishes_survives
    (stopList w ((w.registry.map Prod.fst).take k) force) new_pid ig tag h1
  have hnot : pyStrOr tag ("proc_" ++ toString new_pid) ∉ (w.registry.map Prod.fst).drop k :=
    fun hm => hsnap (List.mem_of_mem_drop hm)
  have h3 := stopList_preserves_survives ((w.registry.map Prod.fst).drop k)
    ((ParallelRunner.run (stopList w ((w.registry.map Prod.fst).take k) force)
        true new_pid ig tag).2)
    force (pyStrOr tag ("proc_" ++ toString new_pid)) new_pid hnot h2
  rw [stopAllWithLaunchAfterSnapshot_eq]
  exact ⟨rfl, h3.1, h3.2.1⟩

/-- Witness for C8: one process `"x"` (pid 7) tracked, the late launch gets
pid 8 and tag `"y"`, interleaving point k = 1. -/
theorem C8_stop_all_snapshot_witness :
    pidFresh 8 (World.mk (fun _ => { exited := none, ignoresTerm := false })
      [("x", { pid := 7, running := true })]) ∧
    pyStrOr (some "y") ("proc_" ++ toString 8)
      ∉ ((World.mk (fun _ => { exited := none, ignoresTerm := false })
        [("x", { pid := 7, running := true })]).registry.map Prod.fst) ∧
    (ParallelRunner.stop_all (World.mk (fun _ => { exited := none, ignoresTerm := false })
        [("x", { pid := 7, running := true })]) false
      = stopList (World.mk (fun _ => { exited := none, ignoresTerm := false })
          [("x", { pid := 7, running := true })])
          ((World.mk (fun _ => { exited := none, ignoresTerm := false })
            [("x", { pid := 7, running := true })]).registry.map Prod.fst) false ∧
      lookupReg (stopAllWithLaunchAfterSnapshot
          (World.mk (fun _ => { exited := none, ignoresTerm := false })
            [("x", { pid := 7, running := true })]) false 1 8 false (some "y")).registry
          (pyStrOr (some "y") ("proc_" ++ toString 8))
        = some { pid := 8, running := true } ∧
      ((stopAllWithLaunchAfterSnapshot
          (World.mk (fun _ => { exited := none, ignoresTerm := false })
            [("x", { pid := 7, running := true })]) false 1 8 false (some "y")).os 8).exited
        = none) :=
  ⟨by unfold pidFresh; decide, by decide,
    C8_stop_all_snapshot
      (World.mk (fun _ => { exited := none, ignoresTerm := false })
        [("x", { pid := 7, running := true })])
      false 1 8 false (some "y") (by unfold pidFresh; decide) (by decide)⟩

/-- Claim C9: the module-level kill is stop with force=true, and kill_all is
stop_all with force=true (subrunner.py lines 168-178). -/
theorem C9_kill_is_forced_stop (w : World) (pid : String) :
    subrunner.kill w pid = subrunner.stop w pid true ∧
    subrunner.kill_all w = subrunner.stop_all w true :=
  ⟨rfl, rfl⟩

/-- Claim C10: an empty-string tag is falsy in `tag or f"proc_{pid}"`, so
the launch returns the synthesized `proc_<pid>` identifier and the registry
entry is keyed by it; the empty string itself is not touched as a key. -/
theorem C10_empty_tag_is_ignored (w : World) (p : Nat) (ig : Bool) :
    (ParallelRunner.run w true p ig (some "")).1
      = Except.ok ("proc_" ++ toString p) ∧
    lookupReg (ParallelRunner.run w true p ig (some "")).2.registry
        ("proc_" ++ toString p)
      = some { pid := p, running := true } ∧
    lookupReg (ParallelRunner.run w true p ig (some "")).2.registry ""
      = lookupReg w.registry "" := by
  have hid : pyStrOr (some "") ("proc_" ++ toString p) = "proc_" ++ toString p := rfl
  have hne : ("" : String) ≠ "proc_" ++ toString p := by
    intro hh
    have hlen : ("" : String).length = ("proc_" ++ toString p).length := by rw [hh]
    rw [String.length_append] at hlen
    have h0 : ("" : String).length = 0 := rfl
    have h5 : ("proc_" : String).length = 5 := rfl
    omega
  refine ⟨?_, ?_, ?_⟩
  · rw [run_ok_id, hid]
  · rw [run_ok_registry, hid]
    exact lookupReg_insertReg_self _ _ _
  · rw [run_ok_registry, hid]
    exact lookupReg_insertReg_other _ _ _ _ hne
